import Mathlib

/-!
Verification development for the UniMate retrieval-augmented answering
orchestrator (api_server.py).  The Python source is shallowly embedded:
pure functions become Lean functions, the mutable session map becomes
explicit state passing, relevance scores (Python floats used only for
comparison and max) become rationals, and external collaborators
(the generator, the query classifier) become function parameters.
Functions imported from the repository's core package, whose sources are
not available, are modelled from the spec and marked as such.
-/

namespace UniMate

/-- Metadata of one indexed chunk: source document name, page number and
chunk text, mirroring the entries of a vector store's meta mapping. -/
structure ChunkMeta where
  doc : String
  page : Nat
  text : String
deriving DecidableEq

/-- One conversation message: role ("user" or "assistant") and text content.
Timestamps are not modelled; temporal order is the order of the log. -/
structure Message where
  role : String
  content : String
deriving DecidableEq

/-- One session record, mirroring the dictionaries stored in the global
sessions map (the created_at timestamp is not modelled). -/
structure Session where
  sid : String
  messages : List Message
  collection_id : Option String
deriving DecidableEq

/-- Association-list lookup, modelling Python dict membership and access. -/
def alookup (k : String) : List (String × α) → Option α
  | [] => none
  | p :: ps => if p.1 = k then some p.2 else alookup k ps

/-- Association-list update, modelling Python dict assignment: replaces the
value at an existing key in place, otherwise appends the new key at the end
(dict insertion order). -/
def ainsert (k : String) (v : α) : List (String × α) → List (String × α)
  | [] => [(k, v)]
  | p :: ps => if p.1 = k then (k, v) :: ps else p :: ainsert k v ps

/-- First key of an association list, modelling list(d.keys())[0]; the empty
case (an IndexError in Python) is unreachable at the call site. -/
def firstKeyD : List (String × α) → String
  | [] => ""
  | p :: _ => p.1

/-- Data of one collection as seen by search_all_collections for a fixed
query: the folder name (collection id), whether loading and searching
succeeds (ok = false models the exception caught per collection), the output
of vs.search_hybrid for the query, the meta mapping vs.meta, and the value of
vs.top_dense_score for the query.  Search internals are external
collaborators, so their outputs are data here. -/
structure CollectionData where
  id : String
  ok : Bool
  results : List (String × ℚ)
  meta : List (String × ChunkMeta)
  topScore : ℚ
deriving DecidableEq

/-- Insert one element into a list that is already sorted by score
descending, placing it before the first element whose score is not larger;
this reproduces the stability of Python's list.sort with
key=lambda x: x[1] and reverse=True (equal scores keep input order). -/
def insertDesc (x : String × ℚ) : List (String × ℚ) → List (String × ℚ)
  | [] => [x]
  | y :: ys => if y.2 ≤ x.2 then x :: y :: ys else y :: insertDesc x ys

/-- Stable sort by score descending, modelling
all_results.sort(key=lambda x: x[1], reverse=True). -/
def sortDesc : List (String × ℚ) → List (String × ℚ)
  | [] => []
  | x :: xs => insertDesc x (sortDesc xs)

/-- Metadata copy for one candidate: if its local chunk id is present in the
collection's meta, store the metadata under the globally prefixed id. -/
def metaInsertStep (cid : String) (cmeta : List (String × ChunkMeta))
    (m : List (String × ChunkMeta)) (p : String × ℚ) :
    List (String × ChunkMeta) :=
  match alookup p.1 cmeta with
  | some v => ainsert (cid ++ "::" ++ p.1) v m
  | none => m

/-- Effect of one collection on the running maximal top score: the top score
is consulted only for a successful collection with non-empty results. -/
def maxStep (m : ℚ) (c : CollectionData) : ℚ :=
  if c.ok then (if c.results = [] then m else max m c.topScore) else m

/-- Effect of one collection on the combined metadata mapping. -/
def metaStep (m : List (String × ChunkMeta)) (c : CollectionData) :
    List (String × ChunkMeta) :=
  if c.ok then c.results.foldl (metaInsertStep c.id c.meta) m else m

/-- One iteration of the collection loop in search_all_collections: on
success, append the globally prefixed candidates, copy metadata for every
candidate whose local id is in the collection's meta, and fold the
collection's top score into the running maximum when it returned results; a
failing collection is skipped (the except branch). -/
def gatherStep (acc : List (String × ℚ) × List (String × ChunkMeta) × ℚ)
    (c : CollectionData) : List (String × ℚ) × List (String × ChunkMeta) × ℚ :=
  if c.ok then
    (acc.1 ++ c.results.map (fun p => (c.id ++ "::" ++ p.1, p.2)),
     c.results.foldl (metaInsertStep c.id c.meta) acc.2.1,
     if c.results = [] then acc.2.2 else max acc.2.2 c.topScore)
  else acc

/-- The candidate-gathering loop of search_all_collections, before the
global sort and truncation. -/
def gatherAll (cs : List CollectionData) :
    List (String × ℚ) × List (String × ChunkMeta) × ℚ :=
  cs.foldl gatherStep ([], [], 0)

/-- Embedding of search_all_collections: returns the merged candidate list
(sorted by score descending, truncated to final_k), the combined metadata
mapping, and the maximal per-collection top score (0 when no collection
exists or none contributes). -/
def search_all_collections (cs : List CollectionData) (final_k : Nat) :
    List (String × ℚ) × List (String × ChunkMeta) × ℚ :=
  if cs = [] then ([], [], 0)
  else
    let g := gatherAll cs
    ((sortDesc g.1).take final_k, g.2.1, g.2.2)

/-! String operations with Python semantics, implemented over the character
list of a String so that the kernel can evaluate them (the byte-position
based core implementations do not reduce definitionally). -/

/-- Whitespace predicate of Python's str.strip: space, tab, newline,
carriage return, vertical tab and form feed. -/
def pySpace (c : Char) : Bool :=
  c = ' ' || c = '\t' || c = '\n' || c = '\r' || c = '\x0b' || c = '\x0c'

/-- Python str.strip(): removes leading and trailing whitespace. -/
def pyStrip (s : String) : String :=
  ⟨((s.data.dropWhile pySpace).reverse.dropWhile pySpace).reverse⟩

/-- Python str.startswith(pat). -/
def pyStartsWith (s pat : String) : Bool := pat.data.isPrefixOf s.data

/-- Containment of a character pattern as a contiguous run of another list. -/
def hasInfixChars (pat : List Char) : List Char → Bool
  | [] => pat.isEmpty
  | c :: cs => pat.isPrefixOf (c :: cs) || hasInfixChars pat cs

/-- Python substring test: pat in s. -/
def pyContains (s pat : String) : Bool := hasInfixChars pat.data s.data

/-- Python s[:n] (prefix of n code points). -/
def pyTake (s : String) (n : Nat) : String := ⟨s.data.take n⟩

/-- Python len(s) in code points. -/
def pyLen (s : String) : Nat := s.data.length

/-- Role label used when formatting one message into the summary. -/
def roleLabel (r : String) : String := if r = "user" then "User" else "Assistant"

/-- Embedding of conversation_summary: the fixed marker on an empty log,
otherwise the last 10 messages formatted with role labels and contents
truncated to 100 characters, joined in temporal order. -/
def conversation_summary (session : Session) : String :=
  let messages := session.messages
  if messages = [] then "No prior conversation."
  else
    let last_n := messages.drop (messages.length - 10)
    let summary_parts := last_n.foldl
      (fun acc m => acc ++ [roleLabel m.role ++ ": " ++ pyTake m.content 100]) []
    String.intercalate " | " summary_parts

/-- Embedding of get_or_create_session: a truthy id found in the map is
returned with its session; any other reference (absent id, empty id, or an
unknown id) creates a fresh session stored under a newly generated id, which
is modelled as the explicit freshId argument (uuid4 in the source). -/
def get_or_create_session (sessions : List (String × Session))
    (session_id : Option String) (freshId : String) :
    String × Session × List (String × Session) :=
  let fresh : Session := { sid := freshId, messages := [], collection_id := none }
  match session_id with
  | some sid =>
    if sid ≠ "" then
      match alookup sid sessions with
      | some s => (sid, s, sessions)
      | none => (freshId, fresh, ainsert freshId fresh sessions)
    else (freshId, fresh, ainsert freshId fresh sessions)
  | none => (freshId, fresh, ainsert freshId fresh sessions)

/-! External capabilities and functions imported from the repository's core
package, whose source files are not available here. -/

/-- Dependencies of the query endpoint: the external QueryClassifier
(is_generic_query), the external Generator (llm.generate, signalling failure
by the __LLM_ERROR__ sentinel), and the configuration constants
LOW_CONFIDENCE_THRESH and TOPK_FINAL from core.config. -/
structure QueryDeps where
  isGeneric : String → Bool
  gen : String → String
  thresh : ℚ
  topkFinal : Nat

/-- Modelled from the spec: build_prompt from core.retrieval (source not
available) builds the generic prompt from query and conversation summary, or
the evidence-bearing prompt which additionally carries the context block. -/
def build_prompt (q conv_summary context_block : String) (general : Bool) :
    String :=
  if general then
    "GENERAL PROMPT / Query: " ++ q ++ " / Conversation: " ++ conv_summary
  else
    "GROUNDED PROMPT / Query: " ++ q ++ " / Conversation: " ++ conv_summary ++
      " / Context: " ++ context_block

/-- Modelled from the spec: make_context from core.retrieval (source not
available) builds, from the ranked candidate list and the metadata mapping,
the concatenated chunk texts, the page numbers of the contributing chunks,
and the source metadata list for the candidates. -/
def make_context (fused : List (String × ℚ))
    (combined_meta : List (String × ChunkMeta)) :
    String × List Nat × List ChunkMeta :=
  let found := fused.filterMap (fun p => alookup p.1 combined_meta)
  (String.intercalate " " (found.map (fun m => m.text)),
   found.map (fun m => m.page), found)

/-- Modelled from the spec: add_inline_citations from core.retrieval (source
not available) rewrites the answer text to insert inline markers referencing
the page numbers of the contributing chunks. -/
def add_inline_citations (answer : String) (pages : List Nat) : String :=
  answer ++ " [pages: " ++
    String.intercalate ", " (pages.map (fun n => toString n)) ++ "]"

/-- Modelled from the spec: minimal_extractive_fallback from core.retrieval
(source not available) substitutes a minimal extractive answer built directly
from the first given candidate's chunk text, with no generation. -/
def minimal_extractive_fallback (cands : List (String × ℚ))
    (combined_meta : List (String × ChunkMeta)) : String :=
  match cands with
  | [] => ""
  | c :: _ =>
    match alookup c.1 combined_meta with
    | some m => m.text
    | none => ""

/-! The answer orchestration of the /api/query handler, split into the
retrieval phase, the gate, the generation phase with its retry, and the
citation step, exactly following the source's control flow. -/

/-- Retrieval step of the query handler: search_all_collections is consulted
only for non-generic queries (a generic query skips retrieval entirely). -/
def retrievalResult (deps : QueryDeps) (cs : List CollectionData)
    (q : String) : List (String × ℚ) × List (String × ChunkMeta) × ℚ :=
  if deps.isGeneric q then ([], [], 0) else search_all_collections cs deps.topkFinal

/-- Context construction and confidence gate: yields the context block, the
tracked pages, the source metadata and the use_general flag.  The grounded
path is taken only when the query is not generic and both the fused list and
the combined metadata are non-empty; then use_general is set iff the
confidence signal is below the threshold or the source list is empty. -/
def contextData (deps : QueryDeps) (cs : List CollectionData) (q : String) :
    String × List Nat × List ChunkMeta × Bool :=
  if deps.isGeneric q then ("", [], [], true)
  else
    let sr := retrievalResult deps cs q
    if sr.1 ≠ [] ∧ sr.2.1 ≠ [] then
      let mc := make_context sr.1 sr.2.1
      (mc.1, mc.2.1, mc.2.2,
       decide (sr.2.2 < deps.thresh) || mc.2.2.isEmpty)
    else ("", [], [], true)

/-- Generation phase with error fallback and the single retry: returns the
pre-citation answer text, the (possibly dropped) page list, whether a retry
generation call was made, and the number of generator invocations. -/
def generationPhase (deps : QueryDeps) (conv_summary q context_block : String)
    (pages0 : List Nat) (source_meta : List ChunkMeta)
    (combined_meta : List (String × ChunkMeta)) (use_general : Bool) :
    String × List Nat × Bool × Nat :=
  let raw_answer := deps.gen (build_prompt q conv_summary context_block use_general)
  if pyStartsWith raw_answer "__LLM_ERROR__" then
    (if use_general = false ∧ source_meta ≠ [] then
       minimal_extractive_fallback [(firstKeyD combined_meta, 0)] combined_meta
     else "Sorry, I couldn\x27t generate an answer right now.",
     pages0, false, 1)
  else
    let fa := pyStrip raw_answer
    if use_general = false ∧
        (pyContains fa "Not found in the document" = true ∨ pyLen fa < 4) then
      let alt := deps.gen (build_prompt q conv_summary context_block true)
      if pyStartsWith alt "__LLM_ERROR__" = false then (pyStrip alt, [], true, 2)
      else (fa, pages0, true, 2)
    else (fa, pages0, false, 1)

/-- Result of the orchestration for one query, with the response fields
(answer, sources, usedDocuments) and observables of the control flow: the
number of generator calls, whether citation annotation was applied, whether
the retry fired, the final page list, and the answer before annotation. -/
structure OrchResult where
  answer : String
  sources : List ChunkMeta
  usedDocuments : Bool
  llmCalls : Nat
  citationsApplied : Bool
  retried : Bool
  pagesFinal : List Nat
  preAnswer : String
deriving DecidableEq

/-- Orchestration of one query after validation and the user-message append:
gate, generation with retry, citation annotation, and response assembly. -/
def orchestrate (deps : QueryDeps) (cs : List CollectionData)
    (conv_summary user_query : String) : OrchResult :=
  let cd := contextData deps cs user_query
  let combined_meta := (retrievalResult deps cs user_query).2.1
  let source_meta := cd.2.2.1
  let use_general := cd.2.2.2
  let gp := generationPhase deps conv_summary user_query cd.1 cd.2.1
    source_meta combined_meta use_general
  let final1 := gp.1
  let pages1 := gp.2.1
  let final2 :=
    if use_general = false ∧ pages1 ≠ [] then add_inline_citations final1 pages1
    else final1
  { answer := final2
    sources := if use_general then [] else source_meta
    usedDocuments := !use_general
    llmCalls := gp.2.2.2
    citationsApplied := decide (use_general = false ∧ pages1 ≠ [])
    retried := gp.2.2.1
    pagesFinal := pages1
    preAnswer := final1 }

/-- Result of the /api/query endpoint: the HTTP-level outcome plus the
resulting session map and the control-flow observables. -/
inductive Outcome where
  | rejected (msg : String)
  | serverError (msg : String)
  | answer (text : String) (sources : List ChunkMeta) (usedDocuments : Bool)
deriving DecidableEq

/-- Full result of one call to the query endpoint. -/
structure QueryResult where
  outcome : Outcome
  sessions : List (String × Session)
  llmCalls : Nat
  citationsApplied : Bool
  retried : Bool
deriving DecidableEq

/-- Embedding of the /api/query handler: input validation, session
resolution, the pre-orchestration user-message append, the try block (crash
models any exception raised inside it), orchestration, and the assistant
append.  freshId stands for the uuid generated if a session is created. -/
def query (deps : QueryDeps) (cs : List CollectionData)
    (sessions : List (String × Session)) (session_id : Option String)
    (rawQuery : String) (freshId : String) (crash : Bool) : QueryResult :=
  let user_query := pyStrip rawQuery
  if session_id = none ∨ session_id = some "" then
    { outcome := .rejected "session_id required", sessions := sessions,
      llmCalls := 0, citationsApplied := false, retried := false }
  else if user_query = "" then
    { outcome := .rejected "query cannot be empty", sessions := sessions,
      llmCalls := 0, citationsApplied := false, retried := false }
  else
    let g := get_or_create_session sessions session_id freshId
    let sid := g.1
    let session1 : Session :=
      { g.2.1 with messages := g.2.1.messages ++ [⟨"user", user_query⟩] }
    let sessions2 := ainsert sid session1 g.2.2
    if crash then
      { outcome := .serverError "internal error", sessions := sessions2,
        llmCalls := 0, citationsApplied := false, retried := false }
    else
      let conv := conversation_summary session1
      let r := orchestrate deps cs conv user_query
      let session2 : Session :=
        { session1 with messages := session1.messages ++ [⟨"assistant", r.answer⟩] }
      { outcome := .answer r.answer r.sources r.usedDocuments,
        sessions := ainsert sid session2 sessions2,
        llmCalls := r.llmCalls, citationsApplied := r.citationsApplied,
        retried := r.retried }

/-! Definitions used to state the claims: the ordering named by the spec's
tie-break sentence, and concrete inputs for counterexamples and witnesses. -/

/-- Lexicographic comparison of character lists by code point. -/
def strLtChars : List Char → List Char → Bool
  | [], [] => false
  | [], _ :: _ => true
  | _ :: _, [] => false
  | a :: as, b :: bs =>
    if a.val < b.val then true
    else if b.val < a.val then false
    else strLtChars as bs

/-- Ascending lexicographic order on global id strings, as used by the
claimed tie-break. -/
def strAsc (a b : String) : Bool := strLtChars a.data b.data

/-- Ordering claimed by the spec for the merged candidate list: score
descending, ties broken by ascending global id. -/
def sortedByScoreThenId (l : List (String × ℚ)) : Prop :=
  l.Pairwise (fun a b => b.2 < a.2 ∨ (a.2 = b.2 ∧ strAsc a.1 b.1 = true))

/-- Two healthy collections whose single candidates tie on score, with the
collection whose id is lexicographically larger enumerated first. -/
def c1cols : List CollectionData :=
  [⟨"b", true, [("0", 1)], [("0", ⟨"d", 1, "tb"⟩)], 1⟩,
   ⟨"a", true, [("0", 1)], [("0", ⟨"d", 2, "ta"⟩)], 1⟩]

/-- One healthy collection with a single confident candidate ("TT" on
page 3 of doc.pdf, score 2). -/
def oneCol : List CollectionData :=
  [⟨"c", true, [("0", 2)], [("0", ⟨"doc.pdf", 3, "TT"⟩)], 2⟩]

/-- Two healthy collections where the globally top-scored candidate ("TB",
score 2) lives in the collection enumerated second. -/
def twoCols : List CollectionData :=
  [⟨"a", true, [("0", 1)], [("0", ⟨"da", 1, "TA"⟩)], 1⟩,
   ⟨"b", true, [("0", 2)], [("0", ⟨"db", 2, "TB"⟩)], 2⟩]

/-- Dependencies whose generator answers a grounded prompt with the exact
text of spec Scenario E and any other prompt with "ALT". -/
def depsScenE : QueryDeps :=
  { isGeneric := fun _ => false,
    gen := fun p =>
      if pyStartsWith p "GROUNDED" then "Not found in document." else "ALT",
    thresh := 1, topkFinal := 5 }

/-- Dependencies whose generator answers a grounded prompt with the marker
phrase actually checked by the source and any other prompt with "ALT". -/
def depsMarker : QueryDeps :=
  { isGeneric := fun _ => false,
    gen := fun p =>
      if pyStartsWith p "GROUNDED" then "Not found in the document." else "ALT",
    thresh := 1, topkFinal := 5 }

/-- Dependencies whose generator always fails with the error sentinel. -/
def depsErr : QueryDeps :=
  { isGeneric := fun _ => false, gen := fun _ => "__LLM_ERROR__ boom",
    thresh := 1, topkFinal := 5 }

/-- Dependencies whose generator answers every prompt with a fixed usable
text. -/
def depsPlain : QueryDeps :=
  { isGeneric := fun _ => false, gen := fun _ => "A plain answer.",
    thresh := 1, topkFinal := 5 }

/-- Dependencies that classify every query as generic. -/
def depsGeneric : QueryDeps :=
  { isGeneric := fun _ => true, gen := fun _ => "A generic answer.",
    thresh := 1, topkFinal := 5 }

/-! Theorems.  First the supporting lemmas about sorting, lookup and the
gathering loop, then one theorem (plus counterexample and witness where
needed) per claim. -/

/-- Membership is preserved by insertion into the descending list. -/
theorem mem_insertDesc (z x : String × ℚ) (l : List (String × ℚ)) :
    z ∈ insertDesc x l ↔ z = x ∨ z ∈ l := by
  induction l with
  | nil => simp [insertDesc]
  | cons y ys ih =>
    rw [insertDesc]
    by_cases hc : y.2 ≤ x.2
    · rw [if_pos hc]
      simp only [List.mem_cons]
    · rw [if_neg hc]
      simp only [List.mem_cons, ih]
      tauto

/-- Insertion preserves the score-descending pairwise property. -/
theorem insertDesc_pairwise (x : String × ℚ) (l : List (String × ℚ))
    (h : l.Pairwise (fun a b => b.2 ≤ a.2)) :
    (insertDesc x l).Pairwise (fun a b => b.2 ≤ a.2) := by
  induction l with
  | nil => simp [insertDesc]
  | cons y ys ih =>
    rcases List.pairwise_cons.1 h with ⟨hy, hys⟩
    rw [insertDesc]
    by_cases hc : y.2 ≤ x.2
    · rw [if_pos hc]
      refine List.pairwise_cons.2 ⟨?_, h⟩
      intro z hz
      rcases List.mem_cons.1 hz with rfl | hz
      · exact hc
      · exact (hy z hz).trans hc
    · rw [if_neg hc]
      refine List.pairwise_cons.2 ⟨?_, ih hys⟩
      intro z hz
      rcases (mem_insertDesc z x ys).1 hz with rfl | hz
      · exact le_of_lt (lt_of_not_le hc)
      · exact hy z hz

/-- The stable sort produces a score-descending list. -/
theorem sortDesc_pairwise (l : List (String × ℚ)) :
    (sortDesc l).Pairwise (fun a b => b.2 ≤ a.2) := by
  induction l with
  | nil => exact List.Pairwise.nil
  | cons x xs ih => exact insertDesc_pairwise x (sortDesc xs) ih

/-- Elements of one fixed score are not reordered by insertion. -/
theorem filter_insertDesc (s : ℚ) (x : String × ℚ) (l : List (String × ℚ)) :
    (insertDesc x l).filter (fun p => decide (p.2 = s)) =
      (if x.2 = s then [x] else []) ++ l.filter (fun p => decide (p.2 = s)) := by
  induction l with
  | nil =>
    rw [insertDesc]
    by_cases hx : x.2 = s <;> simp [hx]
  | cons y ys ih =>
    rw [insertDesc]
    by_cases hc : y.2 ≤ x.2
    · rw [if_pos hc]
      by_cases hx : x.2 = s <;> simp [hx, List.filter_cons]
    · rw [if_neg hc]
      have hxy : x.2 < y.2 := lt_of_not_le hc
      by_cases hy : y.2 = s
      · have hx : ¬ x.2 = s := by
          intro h; exact absurd (h.trans hy.symm ▸ hxy) (lt_irrefl _)
        simp [List.filter_cons, hy, hx, ih]
      · by_cases hx : x.2 = s <;> simp [List.filter_cons, hy, hx, ih]

/-- Stability of the sort: for every score, the elements carrying that score
appear in the sorted list in exactly their input order. -/
theorem filter_sortDesc (s : ℚ) (l : List (String × ℚ)) :
    (sortDesc l).filter (fun p => decide (p.2 = s)) =
      l.filter (fun p => decide (p.2 = s)) := by
  induction l with
  | nil => rfl
  | cons x xs ih =>
    rw [sortDesc, filter_insertDesc, ih, List.filter_cons]
    by_cases hx : x.2 = s <;> simp [hx]

/-- C1 counterexample: with two tying candidates gathered in the order
"b::0" then "a::0", the merged list keeps that order, although ascending
global id would demand "a::0" first; so the output is not sorted with the
claimed ascending-global-id tie-break. -/
theorem claim_C1_counterexample :
    (search_all_collections c1cols 5).1 = [("b::0", 1), ("a::0", 1)] ∧
    strAsc "a::0" "b::0" = true ∧
    ¬ sortedByScoreThenId (search_all_collections c1cols 5).1 := by
  refine ⟨by decide, by decide, ?_⟩
  intro h
  have h' : sortedByScoreThenId [(("b::0" : String), (1 : ℚ)), ("a::0", 1)] := by
    have e : (search_all_collections c1cols 5).1 =
        [(("b::0" : String), (1 : ℚ)), ("a::0", 1)] := by decide
    rw [e] at h
    exact h
  rcases List.pairwise_cons.1 h' with ⟨hrel, _⟩
  have := hrel ("a::0", 1) (by simp)
  rcases this with hlt | ⟨_, hasc⟩
  · exact absurd hlt (by norm_num)
  · exact absurd hasc (by decide)

/-- C1 (amended): the merged candidate list is the truncation to final_k of
the stable score-descending sort of the gathered candidates: it is sorted by
score descending, and candidates of equal score keep the order in which the
collection loop gathered them (collection enumeration order, then
within-collection rank) rather than ascending global id; being a pure
function of the gathered snapshot, repeated runs reproduce it. -/
theorem claim_C1_merge_sorted_stable (cs : List CollectionData) (k : Nat) :
    (search_all_collections cs k).1 = (sortDesc (gatherAll cs).1).take k ∧
    ((search_all_collections cs k).1).Pairwise (fun a b => b.2 ≤ a.2) ∧
    ∀ s : ℚ, (sortDesc (gatherAll cs).1).filter (fun p => decide (p.2 = s)) =
      (gatherAll cs).1.filter (fun p => decide (p.2 = s)) := by
  refine ⟨?_, ?_, fun s => filter_sortDesc s _⟩
  · rw [search_all_collections]
    split
    · next h => subst h; simp [gatherAll, sortDesc]
    · rfl
  · rw [search_all_collections]
    split
    · exact List.Pairwise.nil
    · exact (sortDesc_pairwise _).take

/-- The maximal-score component of one gathering step. -/
theorem gatherStep_max (acc : List (String × ℚ) × List (String × ChunkMeta) × ℚ)
    (c : CollectionData) : (gatherStep acc c).2.2 = maxStep acc.2.2 c := by
  by_cases h : c.ok = true <;> simp [gatherStep, maxStep, h]

/-- The metadata component of one gathering step. -/
theorem gatherStep_meta (acc : List (String × ℚ) × List (String × ChunkMeta) × ℚ)
    (c : CollectionData) : (gatherStep acc c).2.1 = metaStep acc.2.1 c := by
  by_cases h : c.ok = true <;> simp [gatherStep, metaStep, h]

/-- The maximal score computed by the loop depends only on its own running
value. -/
theorem foldl_gather_max (cs : List CollectionData)
    (acc : List (String × ℚ) × List (String × ChunkMeta) × ℚ) :
    (cs.foldl gatherStep acc).2.2 = cs.foldl maxStep acc.2.2 := by
  induction cs generalizing acc with
  | nil => rfl
  | cons c cs ih =>
    rw [List.foldl_cons, List.foldl_cons, ih, gatherStep_max]

/-- The combined metadata computed by the loop depends only on its own
running value. -/
theorem foldl_gather_meta (cs : List CollectionData)
    (acc : List (String × ℚ) × List (String × ChunkMeta) × ℚ) :
    (cs.foldl gatherStep acc).2.1 = cs.foldl metaStep acc.2.1 := by
  induction cs generalizing acc with
  | nil => rfl
  | cons c cs ih =>
    rw [List.foldl_cons, List.foldl_cons, ih, gatherStep_meta]

/-- The confidence signal of search_all_collections is the maximal-score
fold, for any truncation bound. -/
theorem signal_eq (cs : List CollectionData) (k : Nat) :
    (search_all_collections cs k).2.2 = cs.foldl maxStep 0 := by
  rw [search_all_collections]
  split
  · next h => subst h; rfl
  · exact foldl_gather_max cs ([], [], 0)

/-- The metadata mapping of search_all_collections is the metadata fold, for
any truncation bound. -/
theorem meta_eq (cs : List CollectionData) (k : Nat) :
    (search_all_collections cs k).2.1 = cs.foldl metaStep [] := by
  rw [search_all_collections]
  split
  · next h => subst h; rfl
  · exact foldl_gather_meta cs ([], [], 0)

/-- The maximal-score fold never decreases below its starting value. -/
theorem le_foldl_maxStep (cs : List CollectionData) (m : ℚ) :
    m ≤ cs.foldl maxStep m := by
  induction cs generalizing m with
  | nil => exact le_refl m
  | cons c cs ih =>
    rw [List.foldl_cons]
    refine le_trans ?_ (ih (maxStep m c))
    rw [maxStep]
    split
    · split
      · exact le_refl m
      · exact le_max_left m c.topScore
    · exact le_refl m

/-- Every successful, non-empty collection bounds the maximal-score fold
from below by its top score. -/
theorem topScore_le_foldl (cs : List CollectionData) :
    ∀ (m : ℚ) (c : CollectionData), c ∈ cs → c.ok = true → c.results ≠ [] →
      c.topScore ≤ cs.foldl maxStep m := by
  induction cs with
  | nil => intro m c hc _ _; cases hc
  | cons d ds ih =>
    intro m c hc hok hres
    rw [List.foldl_cons]
    rcases List.mem_cons.1 hc with rfl | hc
    · refine le_trans ?_ (le_foldl_maxStep ds (maxStep m c))
      rw [maxStep, if_pos hok, if_neg hres]
      exact le_max_right m c.topScore
    · exact ih (maxStep m d) c hc hok hres

/-- The maximal-score fold is either its starting value or some member's top
score. -/
theorem foldl_maxStep_attained (cs : List CollectionData) :
    ∀ m : ℚ, cs.foldl maxStep m = m ∨
      ∃ c ∈ cs, cs.foldl maxStep m = c.topScore := by
  induction cs with
  | nil => intro m; exact Or.inl rfl
  | cons c cs ih =>
    intro m
    rw [List.foldl_cons]
    rcases ih (maxStep m c) with h | ⟨d, hd, he⟩
    · rw [h, maxStep]
      by_cases hok : c.ok = true
      · rw [if_pos hok]
        by_cases hres : c.results = []
        · rw [if_pos hres]; exact Or.inl rfl
        · rw [if_neg hres]
          rcases max_choice m c.topScore with h' | h'
          · exact Or.inl h'
          · exact Or.inr ⟨c, List.mem_cons_self c cs, h'⟩
      · rw [if_neg hok]; exact Or.inl rfl
    · exact Or.inr ⟨d, List.mem_cons_of_mem c hd, he⟩

/-- The maximal-score fold ignores collections that fail to load. -/
theorem foldl_maxStep_allfail (cs : List CollectionData) :
    ∀ m : ℚ, (∀ c ∈ cs, c.ok = false) → cs.foldl maxStep m = m := by
  induction cs with
  | nil => intro m _; rfl
  | cons c cs ih =>
    intro m h
    rw [List.foldl_cons, maxStep]
    have hc := h c (List.mem_cons_self c cs)
    rw [if_neg (by simp [hc])]
    exact ih m (fun d hd => h d (List.mem_cons_of_mem c hd))

/-- C6: for a non-empty set of collections that all load, return results and
have non-negative top scores, the confidence signal of the aggregator is the
maximum of the per-collection top scores (bounded below by each and attained
by one); it never depends on the truncation bound; and it is 0 when no
collection exists or all fail to load. -/
theorem claim_C6_confidence_signal (cs : List CollectionData) (k k' : Nat) :
    (cs ≠ [] → (∀ c ∈ cs, c.ok = true ∧ c.results ≠ [] ∧ 0 ≤ c.topScore) →
      (∀ c ∈ cs, c.topScore ≤ (search_all_collections cs k).2.2) ∧
      ∃ c ∈ cs, (search_all_collections cs k).2.2 = c.topScore) ∧
    (search_all_collections cs k).2.2 = (search_all_collections cs k').2.2 ∧
    (cs = [] → (search_all_collections cs k).2.2 = 0) ∧
    ((∀ c ∈ cs, c.ok = false) → (search_all_collections cs k).2.2 = 0) := by
  rw [signal_eq cs k, signal_eq cs k']
  refine ⟨?_, rfl, ?_, ?_⟩
  · intro hne hval
    constructor
    · intro c hc
      exact topScore_le_foldl cs 0 c hc (hval c hc).1 (hval c hc).2.1
    · obtain ⟨c₀, rest, rfl⟩ := List.exists_cons_of_ne_nil hne
      rw [List.foldl_cons]
      have h₀ := hval c₀ (List.mem_cons_self c₀ rest)
      have hm : maxStep 0 c₀ = c₀.topScore := by
        rw [maxStep, if_pos h₀.1, if_neg h₀.2.1]
        exact max_eq_right h₀.2.2
      rw [hm]
      rcases foldl_maxStep_attained rest c₀.topScore with h | ⟨d, hd, he⟩
      · exact ⟨c₀, List.mem_cons_self c₀ rest, h⟩
      · exact ⟨d, List.mem_cons_of_mem c₀ hd, he⟩
  · intro h; subst h; rfl
  · intro h; exact foldl_maxStep_allfail cs 0 h

/-- C6 witness: on two healthy collections with top scores 1 and 2 the
signal bounds both from below and equals one of them. -/
theorem claim_C6_witness :
    (∀ c ∈ twoCols, c.topScore ≤ (search_all_collections twoCols 1).2.2) ∧
    ∃ c ∈ twoCols, (search_all_collections twoCols 1).2.2 = c.topScore :=
  (claim_C6_confidence_signal twoCols 1 2).1 (by decide) (by decide)

/-- Lookup after an association-list insert succeeds exactly for the
inserted key or a key already present. -/
theorem alookup_ainsert_isSome {α : Type} (g k : String) (v : α)
    (m : List (String × α)) :
    (alookup g (ainsert k v m)).isSome = true ↔
      k = g ∨ (alookup g m).isSome = true := by
  induction m with
  | nil =>
    by_cases hg : k = g <;> simp [ainsert, alookup, hg]
  | cons p ps ih =>
    rw [ainsert]
    by_cases h : p.1 = k
    · rw [if_pos h]
      by_cases hg : k = g <;> simp [alookup, hg, h]
    · rw [if_neg h]
      by_cases hp : p.1 = g <;> simp [alookup, hp, ih]

/-- Keys present after the per-collection metadata fold: a key already
present, or the global id of a candidate whose local id has metadata. -/
theorem alookup_fold_metaInsertStep (cid : String)
    (cmeta : List (String × ChunkMeta)) (rs : List (String × ℚ)) :
    ∀ (m : List (String × ChunkMeta)) (g : String),
    (alookup g (rs.foldl (metaInsertStep cid cmeta) m)).isSome = true ↔
      (alookup g m).isSome = true ∨
      ∃ p ∈ rs, (alookup p.1 cmeta).isSome = true ∧ cid ++ "::" ++ p.1 = g := by
  induction rs with
  | nil => intro m g; simp
  | cons p rs ih =>
    intro m g
    rw [List.foldl_cons]
    cases hl : alookup p.1 cmeta with
    | none =>
      have hm : metaInsertStep cid cmeta m p = m := by
        simp [metaInsertStep, hl]
      rw [hm, ih]
      simp [hl]
    | some v =>
      have hm : metaInsertStep cid cmeta m p =
          ainsert (cid ++ "::" ++ p.1) v m := by
        simp [metaInsertStep, hl]
      rw [hm, ih, alookup_ainsert_isSome]
      simp [hl]
      tauto

/-- Keys present after the collection fold: a key already present, or the
global id of a candidate (with metadata) of a successful collection. -/
theorem alookup_foldl_metaStep (cs : List CollectionData) :
    ∀ (m : List (String × ChunkMeta)) (g : String),
    (alookup g (cs.foldl metaStep m)).isSome = true ↔
      (alookup g m).isSome = true ∨
      ∃ c ∈ cs, c.ok = true ∧ ∃ p ∈ c.results,
        (alookup p.1 c.meta).isSome = true ∧ c.id ++ "::" ++ p.1 = g := by
  induction cs with
  | nil => intro m g; simp
  | cons c cs ih =>
    intro m g
    rw [List.foldl_cons, ih]
    by_cases hok : c.ok = true
    · simp only [metaStep, if_pos hok]
      rw [alookup_fold_metaInsertStep, List.exists_mem_cons_iff, hok]
      simp only [eq_self_iff_true, true_and]
      exact or_assoc
    · simp only [metaStep, if_neg hok]
      rw [List.exists_mem_cons_iff]
      have hno : ¬ (c.ok = true ∧ ∃ p ∈ c.results,
          (alookup p.1 c.meta).isSome = true ∧ c.id ++ "::" ++ p.1 = g) :=
        fun h => hok h.1
      tauto

/-- C5 (amended): the metadata mapping returned by the aggregator contains
an entry exactly for every global id gathered from any successfully searched
collection whose local chunk id has metadata — a superset of the truncated
returned list, not the candidates of the returned list alone. -/
theorem claim_C5_meta_mapping (cs : List CollectionData) (k : Nat)
    (g : String) :
    (alookup g (search_all_collections cs k).2.1).isSome = true ↔
      ∃ c ∈ cs, c.ok = true ∧ ∃ p ∈ c.results,
        (alookup p.1 c.meta).isSome = true ∧ c.id ++ "::" ++ p.1 = g := by
  rw [meta_eq cs k, alookup_foldl_metaStep]
  simp [alookup]

/-- C5 counterexample: with two collections and final_k 1, the candidate
"a::0" is truncated out of the returned list but still has an entry in the
returned metadata mapping. -/
theorem claim_C5_counterexample :
    alookup "a::0" (search_all_collections twoCols 1).2.1 =
      some ⟨"da", 1, "TA"⟩ ∧
    (search_all_collections twoCols 1).1 = [("b::0", 2)] ∧
    "a::0" ∉ ((search_all_collections twoCols 1).1).map Prod.fst := by
  decide

/-- The generation-phase result reached inside orchestrate (definitional
shorthand used to state and prove field equations). -/
def gpOf (deps : QueryDeps) (cs : List CollectionData) (conv q : String) :
    String × List Nat × Bool × Nat :=
  generationPhase deps conv q (contextData deps cs q).1
    (contextData deps cs q).2.1 (contextData deps cs q).2.2.1
    (retrievalResult deps cs q).2.1 (contextData deps cs q).2.2.2

/-- Field equation of orchestrate: the pre-citation answer. -/
theorem orchestrate_preAnswer (deps : QueryDeps) (cs : List CollectionData)
    (conv q : String) :
    (orchestrate deps cs conv q).preAnswer = (gpOf deps cs conv q).1 := rfl

/-- Field equation of orchestrate: the final page list. -/
theorem orchestrate_pagesFinal (deps : QueryDeps) (cs : List CollectionData)
    (conv q : String) :
    (orchestrate deps cs conv q).pagesFinal = (gpOf deps cs conv q).2.1 := rfl

/-- Field equation of orchestrate: the generator call count. -/
theorem orchestrate_llmCalls (deps : QueryDeps) (cs : List CollectionData)
    (conv q : String) :
    (orchestrate deps cs conv q).llmCalls = (gpOf deps cs conv q).2.2.2 := rfl

/-- Field equation of orchestrate: the retry flag. -/
theorem orchestrate_retried (deps : QueryDeps) (cs : List CollectionData)
    (conv q : String) :
    (orchestrate deps cs conv q).retried = (gpOf deps cs conv q).2.2.1 := rfl

/-- Field equation of orchestrate: usedDocuments is the negation of the
use_general flag. -/
theorem orchestrate_usedDocuments (deps : QueryDeps) (cs : List CollectionData)
    (conv q : String) :
    (orchestrate deps cs conv q).usedDocuments =
      !(contextData deps cs q).2.2.2 := rfl

/-- Field equation of orchestrate: sources are returned only on the grounded
path. -/
theorem orchestrate_sources (deps : QueryDeps) (cs : List CollectionData)
    (conv q : String) :
    (orchestrate deps cs conv q).sources =
      (if (contextData deps cs q).2.2.2 then [] else
        (contextData deps cs q).2.2.1) := rfl

/-- Field equation of orchestrate: the citation-annotation guard. -/
theorem orchestrate_citationsApplied (deps : QueryDeps)
    (cs : List CollectionData) (conv q : String) :
    (orchestrate deps cs conv q).citationsApplied =
      decide ((contextData deps cs q).2.2.2 = false ∧
        (gpOf deps cs conv q).2.1 ≠ []) := rfl

/-- Field equation of orchestrate: the final answer, annotated exactly under
the citation guard. -/
theorem orchestrate_answer (deps : QueryDeps) (cs : List CollectionData)
    (conv q : String) :
    (orchestrate deps cs conv q).answer =
      (if (contextData deps cs q).2.2.2 = false ∧
          (gpOf deps cs conv q).2.1 ≠ [] then
        add_inline_citations (gpOf deps cs conv q).1 (gpOf deps cs conv q).2.1
      else (gpOf deps cs conv q).1) := rfl

/-- C3 (amended): citation annotation is applied exactly when the final
decision is grounded (usedDocuments) and the final tracked page list is
non-empty — including extractive-fallback answers produced on the grounded
path — in which case the answer is the annotated pre-citation answer; with
zero tracked pages, or on any generic answer, the answer is returned
unchanged (identity). -/
theorem claim_C3_citations (deps : QueryDeps) (cs : List CollectionData)
    (conv q : String) :
    ((orchestrate deps cs conv q).citationsApplied = true ↔
      (orchestrate deps cs conv q).usedDocuments = true ∧
      (orchestrate deps cs conv q).pagesFinal ≠ []) ∧
    ((orchestrate deps cs conv q).citationsApplied = true →
      (orchestrate deps cs conv q).answer =
        add_inline_citations (orchestrate deps cs conv q).preAnswer
          (orchestrate deps cs conv q).pagesFinal) ∧
    ((orchestrate deps cs conv q).pagesFinal = [] →
      (orchestrate deps cs conv q).answer =
        (orchestrate deps cs conv q).preAnswer) ∧
    ((orchestrate deps cs conv q).usedDocuments = false →
      (orchestrate deps cs conv q).citationsApplied = false ∧
      (orchestrate deps cs conv q).answer =
        (orchestrate deps cs conv q).preAnswer) := by
  rw [orchestrate_citationsApplied, orchestrate_usedDocuments,
    orchestrate_answer, orchestrate_pagesFinal, orchestrate_preAnswer]
  cases hb : (contextData deps cs q).2.2.2 with
  | false =>
    by_cases hp : (gpOf deps cs conv q).2.1 = [] <;> simp [hp]
  | true => simp

/-- C3 witness: on a grounded generator-error run the annotated-answer
equation holds, and on a generic run annotation is skipped and the answer is
returned unchanged. -/
theorem claim_C3_witness :
    ((orchestrate depsErr oneCol "s" "q").answer =
      add_inline_citations (orchestrate depsErr oneCol "s" "q").preAnswer
        (orchestrate depsErr oneCol "s" "q").pagesFinal) ∧
    ((orchestrate depsGeneric [] "s" "q").citationsApplied = false ∧
      (orchestrate depsGeneric [] "s" "q").answer =
        (orchestrate depsGeneric [] "s" "q").preAnswer) :=
  ⟨(claim_C3_citations depsErr oneCol "s" "q").2.1 (by decide),
   (claim_C3_citations depsGeneric [] "s" "q").2.2.2 (by decide)⟩

/-- C3 counterexample: with a failing generator on a grounded attempt, the
final answer is the extractive fallback with citation annotation applied to
it, contradicting that annotation is never applied to extractive-fallback
answers. -/
theorem claim_C3_counterexample :
    pyStartsWith (depsErr.gen "any prompt") "__LLM_ERROR__" = true ∧
    (orchestrate depsErr oneCol "s" "q").usedDocuments = true ∧
    (orchestrate depsErr oneCol "s" "q").preAnswer =
      minimal_extractive_fallback
        [(firstKeyD (search_all_collections oneCol 5).2.1, 0)]
        (search_all_collections oneCol 5).2.1 ∧
    (orchestrate depsErr oneCol "s" "q").preAnswer = "TT" ∧
    (orchestrate depsErr oneCol "s" "q").citationsApplied = true ∧
    (orchestrate depsErr oneCol "s" "q").answer = "TT [pages: 3]" ∧
    (orchestrate depsErr oneCol "s" "q").answer ≠
      (orchestrate depsErr oneCol "s" "q").preAnswer := by
  decide

/-- The generation phase makes at most two generator calls: the initial one
and at most one retry. -/
theorem generationPhase_calls_le_two (deps : QueryDeps)
    (conv q cb : String) (pages : List Nat) (sm : List ChunkMeta)
    (cm : List (String × ChunkMeta)) (ug : Bool) :
    (generationPhase deps conv q cb pages sm cm ug).2.2.2 ≤ 2 := by
  simp only [generationPhase]
  split
  · simp
  · split
    · split <;> simp
    · simp

/-- On a generator error the generation phase returns the extractive
fallback or the apology, keeps the page list, does not retry, and makes one
call. -/
theorem generationPhase_error (deps : QueryDeps) (conv q cb : String)
    (pages : List Nat) (sm : List ChunkMeta) (cm : List (String × ChunkMeta))
    (ug : Bool)
    (hErr : pyStartsWith (deps.gen (build_prompt q conv cb ug))
      "__LLM_ERROR__" = true) :
    generationPhase deps conv q cb pages sm cm ug =
      ((if ug = false ∧ sm ≠ [] then
          minimal_extractive_fallback [(firstKeyD cm, 0)] cm
        else "Sorry, I couldn\x27t generate an answer right now."),
       pages, false, 1) := by
  simp only [generationPhase, hErr]
  rfl

/-- On a grounded attempt whose generated answer is unusable, with a retry
that does not error, the generation phase returns the stripped retry text,
drops the pages, marks the retry and makes two calls. -/
theorem generationPhase_retry (deps : QueryDeps) (conv q cb : String)
    (pages : List Nat) (sm : List ChunkMeta) (cm : List (String × ChunkMeta))
    (hne : pyStartsWith (deps.gen (build_prompt q conv cb false))
      "__LLM_ERROR__" = false)
    (hun : pyContains (pyStrip (deps.gen (build_prompt q conv cb false)))
        "Not found in the document" = true ∨
      pyLen (pyStrip (deps.gen (build_prompt q conv cb false))) < 4)
    (halt : pyStartsWith (deps.gen (build_prompt q conv cb true))
      "__LLM_ERROR__" = false) :
    generationPhase deps conv q cb pages sm cm false =
      (pyStrip (deps.gen (build_prompt q conv cb true)), [], true, 2) := by
  simp only [generationPhase]
  rw [hne]
  simp only [Bool.false_eq_true, if_false]
  rw [if_pos ⟨trivial, hun⟩, if_pos halt]

/-- C2 (amended): the marker phrase checked by the code is "Not found in the
document"; on a grounded attempt whose answer does not error but contains
that marker or is shorter than 4 characters, the orchestrator retries
exactly once with the generic prompt, and if the retry does not error its
stripped text replaces the grounded answer while citation pagination is
dropped; never more than two generator calls happen, so no second retry can
occur.  The Scenario E text "Not found in document." does not contain the
marker and hence does not trigger the retry. -/
theorem claim_C2_retry (deps : QueryDeps) (cs : List CollectionData)
    (conv q : String) :
    ((contextData deps cs q).2.2.2 = false →
      pyStartsWith (deps.gen (build_prompt q conv (contextData deps cs q).1
        false)) "__LLM_ERROR__" = false →
      (pyContains (pyStrip (deps.gen (build_prompt q conv
          (contextData deps cs q).1 false))) "Not found in the document" = true ∨
        pyLen (pyStrip (deps.gen (build_prompt q conv
          (contextData deps cs q).1 false))) < 4) →
      pyStartsWith (deps.gen (build_prompt q conv (contextData deps cs q).1
        true)) "__LLM_ERROR__" = false →
      (orchestrate deps cs conv q).answer =
        pyStrip (deps.gen (build_prompt q conv (contextData deps cs q).1
          true)) ∧
      (orchestrate deps cs conv q).pagesFinal = [] ∧
      (orchestrate deps cs conv q).citationsApplied = false ∧
      (orchestrate deps cs conv q).retried = true ∧
      (orchestrate deps cs conv q).llmCalls = 2) ∧
    (orchestrate deps cs conv q).llmCalls ≤ 2 := by
  constructor
  · intro hug hne hun halt
    have hgp : gpOf deps cs conv q =
        (pyStrip (deps.gen (build_prompt q conv (contextData deps cs q).1
          true)), [], true, 2) := by
      rw [gpOf, hug]
      exact generationPhase_retry deps conv q (contextData deps cs q).1
        (contextData deps cs q).2.1 (contextData deps cs q).2.2.1
        (retrievalResult deps cs q).2.1 hne hun halt
    rw [orchestrate_answer, orchestrate_pagesFinal,
      orchestrate_citationsApplied, orchestrate_retried,
      orchestrate_llmCalls, hgp]
    simp
  · rw [orchestrate_llmCalls, gpOf]
    exact generationPhase_calls_le_two deps conv q _ _ _ _ _

/-- C2 witness: a grounded answer equal to the real marker phrase triggers
one generic retry whose stripped text replaces the answer with pagination
dropped. -/
theorem claim_C2_witness :
    (orchestrate depsMarker oneCol "s" "q").answer =
      pyStrip (depsMarker.gen (build_prompt "q" "s"
        (contextData depsMarker oneCol "q").1 true)) ∧
    (orchestrate depsMarker oneCol "s" "q").pagesFinal = [] ∧
    (orchestrate depsMarker oneCol "s" "q").citationsApplied = false ∧
    (orchestrate depsMarker oneCol "s" "q").retried = true ∧
    (orchestrate depsMarker oneCol "s" "q").llmCalls = 2 :=
  (claim_C2_retry depsMarker oneCol "s" "q").1 (by decide) (by decide)
    (by decide) (by decide)

/-- C2 counterexample: a grounded answer equal to "Not found in document."
(spec Scenario E) does not trigger any retry — the orchestrator keeps it,
makes a single generator call and even annotates it with citations. -/
theorem claim_C2_counterexample :
    (orchestrate depsScenE oneCol "s" "q").usedDocuments = true ∧
    pyStrip (depsScenE.gen (build_prompt "q" "s"
      (contextData depsScenE oneCol "q").1 false)) = "Not found in document." ∧
    (orchestrate depsScenE oneCol "s" "q").retried = false ∧
    (orchestrate depsScenE oneCol "s" "q").llmCalls = 1 ∧
    (orchestrate depsScenE oneCol "s" "q").pagesFinal = [3] ∧
    (orchestrate depsScenE oneCol "s" "q").answer =
      "Not found in document. [pages: 3]" := by
  decide

/-- The tracked page list is always the page projection of the tracked
source metadata. -/
theorem contextData_pages (deps : QueryDeps) (cs : List CollectionData)
    (q : String) :
    (contextData deps cs q).2.1 =
      ((contextData deps cs q).2.2.1).map (fun m => m.page) := by
  simp only [contextData]
  split
  · rfl
  · split
    · rfl
    · rfl

/-- C4 (amended): when the generator returns the error sentinel, a grounded
attempt with tracked sources substitutes the extractive answer built from
the chunk stored under the first key of the combined metadata mapping (the
first gathered candidate, not necessarily the highest-ranked one); any other
attempt substitutes the fixed apology text; exactly one generator call is
made, no retry happens, and the caller still receives a normal answer
response, never an error. -/
theorem claim_C4_generation_failure (deps : QueryDeps)
    (cs : List CollectionData) (conv q : String)
    (hErr : pyStartsWith (deps.gen (build_prompt q conv
      (contextData deps cs q).1 (contextData deps cs q).2.2.2))
      "__LLM_ERROR__" = true) :
    ((contextData deps cs q).2.2.2 = false →
      (contextData deps cs q).2.2.1 ≠ [] →
      (orchestrate deps cs conv q).preAnswer =
        minimal_extractive_fallback
          [(firstKeyD (retrievalResult deps cs q).2.1, 0)]
          (retrievalResult deps cs q).2.1) ∧
    ((contextData deps cs q).2.2.2 = true ∨ (contextData deps cs q).2.2.1 = [] →
      (orchestrate deps cs conv q).answer =
        "Sorry, I couldn\x27t generate an answer right now.") ∧
    (orchestrate deps cs conv q).llmCalls = 1 ∧
    (orchestrate deps cs conv q).retried = false ∧
    (∀ (sessions : List (String × Session)) (sid rawQuery freshId : String),
      sid ≠ "" → pyStrip rawQuery ≠ "" →
      ∃ t s u, (query deps cs sessions (some sid) rawQuery freshId
        false).outcome = Outcome.answer t s u) := by
  have hgp : gpOf deps cs conv q =
      ((if (contextData deps cs q).2.2.2 = false ∧
          (contextData deps cs q).2.2.1 ≠ [] then
        minimal_extractive_fallback
          [(firstKeyD (retrievalResult deps cs q).2.1, 0)]
          (retrievalResult deps cs q).2.1
      else "Sorry, I couldn\x27t generate an answer right now."),
       (contextData deps cs q).2.1, false, 1) :=
    generationPhase_error deps conv q (contextData deps cs q).1
      (contextData deps cs q).2.1 (contextData deps cs q).2.2.1
      (retrievalResult deps cs q).2.1 (contextData deps cs q).2.2.2 hErr
  refine ⟨?_, ?_, ?_, ?_, ?_⟩
  · intro hug hsm
    rw [orchestrate_preAnswer, hgp]
    simp [hug, hsm]
  · intro hor
    rw [orchestrate_answer, hgp]
    rcases hor with hug | hsm
    · simp [hug]
    · have hpg : (contextData deps cs q).2.1 = [] := by
        rw [contextData_pages, hsm]
        rfl
      simp [hsm, hpg]
  · rw [orchestrate_llmCalls, hgp]
  · rw [orchestrate_retried, hgp]
  · intro sessions sid rawQuery freshId hsid hq
    simp only [query]
    rw [if_neg (by simp [hsid]), if_neg hq]
    simp only [Bool.false_eq_true, if_false]
    exact ⟨_, _, _, rfl⟩

/-- C4 witness: with a failing generator on a grounded attempt over two
collections, the extractive answer built from the first metadata key is
substituted and the query endpoint still returns a normal answer. -/
theorem claim_C4_witness :
    (orchestrate depsErr twoCols "s" "q").preAnswer =
      minimal_extractive_fallback
        [(firstKeyD (retrievalResult depsErr twoCols "q").2.1, 0)]
        (retrievalResult depsErr twoCols "q").2.1 ∧
    ∃ t s u, (query depsErr twoCols [] (some "sid") "hello" "f"
      false).outcome = Outcome.answer t s u :=
  ⟨(claim_C4_generation_failure depsErr twoCols "s" "q" (by decide)).1
      (by decide) (by decide),
   (claim_C4_generation_failure depsErr twoCols "s" "q" (by decide)).2.2.2.2
      [] "sid" "hello" "f" (by decide) (by decide)⟩

/-- C4 counterexample: on a generator error with two candidates, the
extractive fallback is built from the first gathered chunk ("TA"), although
the single highest-ranked candidate is "b::0" whose chunk text is "TB". -/
theorem claim_C4_counterexample :
    ((search_all_collections twoCols 5).1).head? = some ("b::0", 2) ∧
    alookup "b::0" (search_all_collections twoCols 5).2.1 =
      some ⟨"db", 2, "TB"⟩ ∧
    (orchestrate depsErr twoCols "s" "q").usedDocuments = true ∧
    (orchestrate depsErr twoCols "s" "q").preAnswer = "TA" ∧
    ("TA" : String) ≠ "TB" := by
  decide

/-- A filterMap over a non-empty list whose function succeeds everywhere is
non-empty. -/
theorem filterMap_ne_nil {α β : Type} (f : α → Option β) (l : List α)
    (hl : l ≠ []) (h : ∀ p ∈ l, (f p).isSome = true) : l.filterMap f ≠ [] := by
  obtain ⟨x, xs, rfl⟩ := List.exists_cons_of_ne_nil hl
  have hx := h x (List.mem_cons_self x xs)
  obtain ⟨v, hv⟩ := Option.isSome_iff_exists.1 hx
  simp [List.filterMap_cons, hv]

/-- C7: the grounded-vs-generic decision is a function of the classifier
flag, the confidence signal and the candidate count: a generic query is
always answered generically with no retrieval (the orchestration result does
not depend on the collections at all); a non-generic query whose candidates
all carry metadata is answered from evidence exactly when the signal reaches
the threshold and the candidate list is non-empty; and with zero collections
the response has usedDocuments false and empty sources. -/
theorem claim_C7_confidence_gate (deps : QueryDeps)
    (cs cs' : List CollectionData) (conv q : String) :
    (deps.isGeneric q = true →
      orchestrate deps cs conv q = orchestrate deps cs' conv q ∧
      (orchestrate deps cs conv q).usedDocuments = false ∧
      (orchestrate deps cs conv q).sources = []) ∧
    (deps.isGeneric q = false →
      (∀ p ∈ (search_all_collections cs deps.topkFinal).1,
        (alookup p.1 (search_all_collections cs deps.topkFinal).2.1).isSome
          = true) →
      (orchestrate deps cs conv q).usedDocuments =
        (decide (deps.thresh ≤ (search_all_collections cs deps.topkFinal).2.2)
          && !(search_all_collections cs deps.topkFinal).1.isEmpty)) ∧
    (cs = [] →
      (orchestrate deps cs conv q).usedDocuments = false ∧
      (orchestrate deps cs conv q).sources = []) := by
  refine ⟨?_, ?_, ?_⟩
  · intro hg
    refine ⟨?_, ?_, ?_⟩
    · simp only [orchestrate, contextData, retrievalResult, hg, if_true]
    · rw [orchestrate_usedDocuments]
      simp [contextData, hg]
    · rw [orchestrate_sources]
      simp [contextData, hg]
  · intro hg hcov
    rw [orchestrate_usedDocuments]
    simp only [contextData, retrievalResult, hg, Bool.false_eq_true,
      if_false]
    by_cases hfe : (search_all_collections cs deps.topkFinal).1 = []
    · rw [if_neg (fun h => h.1 hfe)]
      simp [hfe]
    · by_cases hme : (search_all_collections cs deps.topkFinal).2.1 = []
      · obtain ⟨p, hp⟩ := List.exists_mem_of_ne_nil _ hfe
        have hps := hcov p hp
        rw [hme] at hps
        simp [alookup] at hps
      · rw [if_pos ⟨hfe, hme⟩]
        have hfm : ((search_all_collections cs deps.topkFinal).1).filterMap
            (fun p => alookup p.1
              (search_all_collections cs deps.topkFinal).2.1) ≠ [] :=
          filterMap_ne_nil _ _ hfe hcov
        have hmc : (make_context (search_all_collections cs deps.topkFinal).1
            (search_all_collections cs deps.topkFinal).2.1).2.2.isEmpty
            = false := by
          cases hE : (make_context (search_all_collections cs deps.topkFinal).1
              (search_all_collections cs deps.topkFinal).2.1).2.2.isEmpty
          · rfl
          · exact absurd (List.isEmpty_iff.1 hE) hfm
        have hfe' : ((search_all_collections cs deps.topkFinal).1).isEmpty
            = false := by
          cases hE : ((search_all_collections cs deps.topkFinal).1).isEmpty
          · rfl
          · exact absurd (List.isEmpty_iff.1 hE) hfe
        rw [hmc, hfe']
        rcases lt_or_le (search_all_collections cs deps.topkFinal).2.2
          deps.thresh with h | h
        · simp [h, not_le.2 h]
        · simp [h, not_lt.2 h]
  · intro hcs
    subst hcs
    constructor
    · rw [orchestrate_usedDocuments]
      by_cases hg : deps.isGeneric q = true <;>
        simp [contextData, retrievalResult, search_all_collections, hg]
    · rw [orchestrate_sources]
      by_cases hg : deps.isGeneric q = true <;>
        simp [contextData, retrievalResult, search_all_collections, hg]

/-- C7 witness: a generic query yields the same generic result over two
different collection sets; a grounded query over one confident collection
matches the gate formula; zero collections yield an ungrounded response with
empty sources. -/
theorem claim_C7_witness :
    (orchestrate depsGeneric oneCol "s" "q" =
      orchestrate depsGeneric twoCols "s" "q" ∧
      (orchestrate depsGeneric oneCol "s" "q").usedDocuments = false ∧
      (orchestrate depsGeneric oneCol "s" "q").sources = []) ∧
    ((orchestrate depsPlain oneCol "s" "q").usedDocuments =
      (decide (depsPlain.thresh ≤
          (search_all_collections oneCol depsPlain.topkFinal).2.2)
        && !(search_all_collections oneCol depsPlain.topkFinal).1.isEmpty)) ∧
    ((orchestrate depsPlain [] "s" "q").usedDocuments = false ∧
      (orchestrate depsPlain [] "s" "q").sources = []) :=
  ⟨(claim_C7_confidence_gate depsGeneric oneCol twoCols "s" "q").1 (by decide),
   (claim_C7_confidence_gate depsPlain oneCol oneCol "s" "q").2.1 (by decide)
     (by decide),
   (claim_C7_confidence_gate depsPlain [] [] "s" "q").2.2 (by decide)⟩

/-- Accumulating a map through a fold is the map appended to the
accumulator. -/
theorem foldl_append_map {α β : Type} (f : α → β) (l : List α) :
    ∀ acc : List β, l.foldl (fun a m => a ++ [f m]) acc = acc ++ l.map f := by
  induction l with
  | nil => intro acc; simp
  | cons x xs ih =>
    intro acc
    rw [List.foldl_cons, ih]
    simp

/-- C8: the conversation summary of an empty log is the fixed marker; for a
non-empty log it is the last 10 messages, in temporal order, each formatted
as its role label followed by its content truncated to 100 characters and
joined with the separator. -/
theorem claim_C8_conversation_summary (s : Session) :
    (s.messages = [] → conversation_summary s = "No prior conversation.") ∧
    (s.messages ≠ [] → conversation_summary s =
      String.intercalate " | "
        ((s.messages.drop (s.messages.length - 10)).map
          (fun m => roleLabel m.role ++ ": " ++ pyTake m.content 100))) := by
  constructor
  · intro h
    simp [conversation_summary, h]
  · intro h
    simp only [conversation_summary]
    rw [if_neg h, foldl_append_map]
    simp

/-- C8 witness: a two-message log summarizes to the role-labelled, joined
text. -/
theorem claim_C8_witness :
    conversation_summary ⟨"s", [⟨"user", "hello"⟩, ⟨"assistant", "hi"⟩], none⟩
      = "User: hello | Assistant: hi" := by
  rw [(claim_C8_conversation_summary
    ⟨"s", [⟨"user", "hello"⟩, ⟨"assistant", "hi"⟩], none⟩).2 (by decide)]
  decide

/-- Lookup after inserting the same key yields the inserted value. -/
theorem alookup_ainsert_self {α : Type} (k : String) (v : α)
    (m : List (String × α)) : alookup k (ainsert k v m) = some v := by
  induction m with
  | nil => simp [ainsert, alookup]
  | cons p ps ih =>
    rw [ainsert]
    by_cases h : p.1 = k
    · rw [if_pos h]
      simp [alookup]
    · rw [if_neg h]
      simp [alookup, h, ih]

/-- Lookup of a different key is unchanged by an insert. -/
theorem alookup_ainsert_other {α : Type} (g k : String) (v : α)
    (m : List (String × α)) (h : g ≠ k) :
    alookup g (ainsert k v m) = alookup g m := by
  induction m with
  | nil =>
    have hkg : ¬ (k = g) := fun hh => h hh.symm
    simp [ainsert, alookup, hkg]
  | cons p ps ih =>
    rw [ainsert]
    by_cases hp : p.1 = k
    · rw [if_pos hp]
      have hkg : ¬ (k = g) := fun hh => h hh.symm
      have hpg : ¬ (p.1 = g) := by rw [hp]; exact hkg
      simp [alookup, hkg, hpg]
    · rw [if_neg hp]
      by_cases hg : p.1 = g <;> simp [alookup, hg, ih]

/-- C9 (amended): a query request with an absent or empty session id, or an
empty (post-strip) query text, is rejected immediately with the session map
untouched and no generator call; a request referencing an id unknown to the
session map creates a session under the freshly generated uuid — the user
and assistant messages of the request are stored under that fresh id, while
the referenced id remains absent from the session map. -/
theorem claim_C9_session_lifecycle (deps : QueryDeps)
    (cs : List CollectionData) (sessions : List (String × Session))
    (rawQuery freshId : String) (crash : Bool) :
    (query deps cs sessions none rawQuery freshId crash =
      { outcome := .rejected "session_id required", sessions := sessions,
        llmCalls := 0, citationsApplied := false, retried := false }) ∧
    (query deps cs sessions (some "") rawQuery freshId crash =
      { outcome := .rejected "session_id required", sessions := sessions,
        llmCalls := 0, citationsApplied := false, retried := false }) ∧
    (∀ sid, sid ≠ "" → pyStrip rawQuery = "" →
      query deps cs sessions (some sid) rawQuery freshId crash =
        { outcome := .rejected "query cannot be empty", sessions := sessions,
          llmCalls := 0, citationsApplied := false, retried := false }) ∧
    (∀ sid, sid ≠ "" → alookup sid sessions = none → sid ≠ freshId →
      pyStrip rawQuery ≠ "" → crash = false →
      alookup sid (query deps cs sessions (some sid) rawQuery freshId
        crash).sessions = none ∧
      ∃ s, alookup freshId (query deps cs sessions (some sid) rawQuery
          freshId crash).sessions = some s ∧
        s.messages = [⟨"user", pyStrip rawQuery⟩,
          ⟨"assistant", (orchestrate deps cs
            (conversation_summary ⟨freshId, [⟨"user", pyStrip rawQuery⟩],
              none⟩) (pyStrip rawQuery)).answer⟩]) := by
  refine ⟨?_, ?_, ?_, ?_⟩
  · simp only [query]
    rw [if_pos (Or.inl trivial)]
  · simp only [query]
    rw [if_pos (Or.inr trivial)]
  · intro sid hsid hq
    simp only [query]
    rw [if_neg (by simp [hsid]), if_pos hq]
  · intro sid hsid h0 hfresh hq hcrash
    subst hcrash
    simp only [query]
    rw [if_neg (by simp [hsid]), if_neg hq]
    simp only [get_or_create_session, if_pos hsid, h0,
      Bool.false_eq_true, if_false]
    constructor
    · rw [alookup_ainsert_other _ _ _ _ hfresh,
        alookup_ainsert_other _ _ _ _ hfresh,
        alookup_ainsert_other _ _ _ _ hfresh]
      exact h0
    · exact ⟨_, alookup_ainsert_self _ _ _, rfl⟩

/-- C9 witness: a missing session id is rejected with the map untouched, and
an unknown referenced id "abc" leads to the messages being stored under the
fresh id "f" while "abc" stays absent. -/
theorem claim_C9_witness :
    (query depsPlain oneCol [] none "hi" "f" false =
      { outcome := .rejected "session_id required", sessions := [],
        llmCalls := 0, citationsApplied := false, retried := false }) ∧
    (query depsPlain oneCol [] (some "abc") "   " "f" false =
      { outcome := .rejected "query cannot be empty", sessions := [],
        llmCalls := 0, citationsApplied := false, retried := false }) ∧
    (alookup "abc" (query depsPlain oneCol [] (some "abc") "hi" "f"
      false).sessions = none ∧
    ∃ s, alookup "f" (query depsPlain oneCol [] (some "abc") "hi" "f"
        false).sessions = some s ∧
      s.messages = [⟨"user", pyStrip "hi"⟩,
        ⟨"assistant", (orchestrate depsPlain oneCol
          (conversation_summary ⟨"f", [⟨"user", pyStrip "hi"⟩], none⟩)
          (pyStrip "hi")).answer⟩]) :=
  ⟨(claim_C9_session_lifecycle depsPlain oneCol [] "hi" "f" false).1,
   (claim_C9_session_lifecycle depsPlain oneCol [] "   " "f" false).2.2.1
     "abc" (by decide) (by decide),
   (claim_C9_session_lifecycle depsPlain oneCol [] "hi" "f" false).2.2.2
     "abc" (by decide) (by decide) (by decide) (by decide) rfl⟩

/-- C9 counterexample: starting from an empty session map, a query
referencing the unknown session id "abc" does not create or fill a session
under "abc": the messages land under the freshly generated id instead. -/
theorem claim_C9_counterexample :
    alookup "abc" (query depsPlain oneCol [] (some "abc") "hi" "f"
      false).sessions = none ∧
    (alookup "f" (query depsPlain oneCol [] (some "abc") "hi" "f"
      false).sessions).map (fun s => s.messages.map (fun m => m.role)) =
      some ["user", "assistant"] := by
  decide

/-- C10: when a validated query raises inside the try block, the response is
the error outcome, no generator call was made, and the session log already
holds the appended user message — and only it, no assistant message — with
no rollback. -/
theorem claim_C10_no_rollback (deps : QueryDeps) (cs : List CollectionData)
    (sessions : List (String × Session)) (sid rawQuery freshId : String)
    (hsid : sid ≠ "") (hq : pyStrip rawQuery ≠ "") :
    (query deps cs sessions (some sid) rawQuery freshId true).outcome =
      Outcome.serverError "internal error" ∧
    (query deps cs sessions (some sid) rawQuery freshId true).llmCalls = 0 ∧
    ∃ s, alookup (get_or_create_session sessions (some sid) freshId).1
        (query deps cs sessions (some sid) rawQuery freshId true).sessions =
        some s ∧
      s.messages = (get_or_create_session sessions (some sid)
        freshId).2.1.messages ++ [⟨"user", pyStrip rawQuery⟩] := by
  simp only [query]
  rw [if_neg (by simp [hsid]), if_neg hq]
  exact ⟨rfl, rfl, _, alookup_ainsert_self _ _ _, rfl⟩

/-- C10 witness: on a session holding two prior messages, a crashing query
returns the error outcome and leaves exactly the user message appended. -/
theorem claim_C10_witness :
    (query depsPlain oneCol
      [("abc", ⟨"abc", [⟨"user", "old"⟩, ⟨"assistant", "oldans"⟩], none⟩)]
      (some "abc") "hi" "f" true).outcome =
      Outcome.serverError "internal error" ∧
    (query depsPlain oneCol
      [("abc", ⟨"abc", [⟨"user", "old"⟩, ⟨"assistant", "oldans"⟩], none⟩)]
      (some "abc") "hi" "f" true).llmCalls = 0 ∧
    ∃ s, alookup (get_or_create_session
        [("abc", ⟨"abc", [⟨"user", "old"⟩, ⟨"assistant", "oldans"⟩], none⟩)]
        (some "abc") "f").1
        (query depsPlain oneCol
          [("abc", ⟨"abc", [⟨"user", "old"⟩, ⟨"assistant", "oldans"⟩], none⟩)]
          (some "abc") "hi" "f" true).sessions = some s ∧
      s.messages = (get_or_create_session
        [("abc", ⟨"abc", [⟨"user", "old"⟩, ⟨"assistant", "oldans"⟩], none⟩)]
        (some "abc") "f").2.1.messages ++ [⟨"user", pyStrip "hi"⟩] :=
  claim_C10_no_rollback depsPlain oneCol
    [("abc", ⟨"abc", [⟨"user", "old"⟩, ⟨"assistant", "oldans"⟩], none⟩)]
    "abc" "hi" "f" (by decide) (by decide)

end UniMate
